import Mathlib

/-!
# Shallow embedding of `src/vector.py` (vector learning app)

The program is a tkinter application with four lesson panels built on a
shared `VectorInput` widget, a `PlotManager` and small numpy one-liners.
This file embeds the numeric and control-flow content of that code:

* `getComponent` / `get_vector` — `VectorInput.get_vector` (lines 225-237):
  each entry text is stripped; empty, `"-"` or unparsable text becomes
  `0.0`, otherwise the parsed value is used.  Python's `float` parser is
  abstracted as a parameter `parse : String → Option α`; `str.strip()` is
  the explicit `pyStrip` (drop leading and trailing whitespace).
* `componentLabels` / `createdEntryCount` — `VectorInput.create_widgets`
  (lines 197-212) creates one entry per element of
  `zip(["X","Y","Z"], defaults)`.
* `addSubResult` — `VectorAddSubLesson.compute` (line 543):
  `vec_a + vec_b if op == "Add" else vec_a - vec_b`, numpy elementwise.
* `LessonState` / `ScalingStep` / `scalingCompute` —
  `VectorScalingLesson.compute` (lines 637-651): read the vector, try to
  parse the scalar; on failure show a blocking dialog and return with the
  panel state untouched, otherwise replace the plot with `[vec, k*vec]`
  and the info panel with the scaling result.
* `needs_3d` / `plotKind` — `PlotManager.plot_vectors` (line 264):
  `any(abs(vec[2]) > 1e-10 for vec in vectors if len(vec) >= 3)` decides
  between a 3D and a 2D figure.
* `npNorm` — `np.linalg.norm` on a 1-D array: the square root of the sum
  of squared components.
* `magDirCompute` — `VectorMagnitudeLesson.compute` (lines 724-733):
  magnitude, and direction `vec / mag` guarded by `mag > 1e-10`, else
  `np.zeros_like(vec)`.
* `basicsPlotInfo` — `VectorBasicsLesson.plot` (lines 441-448): the
  plotted vectors and the displayed magnitude `np.linalg.norm(vec)`.
* `Arrow` / `arrows3d` / `arrows2d` — `PlotManager.setup_3d_plot`
  (lines 322-334) and `setup_2d_plot` (lines 355-367): the arrows drawn,
  each with its tip coordinates and its label; the source only draws a
  vector whose norm (in 2D, the norm of its first two components) exceeds
  `1e-10`.

The float literal `1e-10` is modelled as the exact rational `1 / 10 ^ 10`.
Colors and all purely visual styling are not modelled.
-/

universe u

/-- Python `str.strip()`: remove leading and trailing whitespace from the
text, leaving the interior untouched. -/
def pyStrip (s : String) : String :=
  String.mk (((s.data.dropWhile Char.isWhitespace).reverse.dropWhile Char.isWhitespace).reverse)

/-- One entry of `VectorInput.get_vector`: the text is stripped; empty or
`"-"` text yields `0.0`; otherwise `float(v)` is attempted, any parse
failure yielding `0.0`.  `parse` abstracts Python's `float` parser. -/
def getComponent {α : Type u} [Zero α] (parse : String → Option α) (text : String) : α :=
  let v := pyStrip text
  if v = "" ∨ v = "-" then 0
  else
    match parse v with
    | some x => x
    | none => 0

/-- `VectorInput.get_vector`: the list of entry texts is converted
entry by entry via `getComponent` into the returned array. -/
def get_vector {α : Type u} [Zero α] (parse : String → Option α) (texts : List String) : List α :=
  texts.map (getComponent parse)

/-- The component labels `["X", "Y", "Z"]` zipped with the default values
in `VectorInput.create_widgets`. -/
def componentLabels : List String := ["X", "Y", "Z"]

/-- Number of entry widgets created by `VectorInput.create_widgets`:
one per element of `zip(["X","Y","Z"], defaults)`. -/
def createdEntryCount {α : Type u} (defaults : List α) : Nat :=
  (componentLabels.zip defaults).length

/-- `VectorAddSubLesson.compute`, line 543:
`result = vec_a + vec_b if op == "Add" else vec_a - vec_b`
(numpy arrays add and subtract elementwise). -/
def addSubResult {α : Type u} [Add α] [Sub α] (op : String) (a b : List α) : List α :=
  if op = "Add" then List.zipWith (fun x y => x + y) a b
  else List.zipWith (fun x y => x - y) a b

/-- The display state a scaling-lesson panel mutates: the currently
plotted vectors and the info panel content `(vec, k, scaled_vec)`. -/
structure LessonState (α : Type u) where
  plot : Option (List (List α))
  info : Option (List α × α × List α)

/-- Outcome of one `VectorScalingLesson.compute` call: the panel state
afterwards and whether the blocking error dialog was shown. -/
structure ScalingStep (α : Type u) where
  state : LessonState α
  dialogShown : Bool

/-- `VectorScalingLesson.compute` (lines 637-651): read the vector, try
`float(scalar_entry.get())`; on `ValueError` show the error dialog and
return (panel state untouched); otherwise compute `k * vec`, replace the
plot with `[vec, scaled_vec]` and the info panel with the result. -/
def scalingCompute {α : Type u} [Zero α] [Mul α] (parse : String → Option α)
    (vecTexts : List String) (scalarText : String) (s : LessonState α) : ScalingStep α :=
  let vec := get_vector parse vecTexts
  match parse scalarText with
  | none => ⟨s, true⟩
  | some k =>
    let scaled := vec.map (fun x => k * x)
    ⟨⟨some [vec, scaled], some (vec, k, scaled)⟩, false⟩

/-- `PlotManager.plot_vectors`, line 264:
`needs_3d = any(abs(vec[2]) > 1e-10 for vec in vectors if len(vec) >= 3)`. -/
def needs_3d {α : Type u} [LinearOrderedField α]
    [DecidableRel ((· < ·) : α → α → Prop)] (vectors : List (List α)) : Bool :=
  vectors.any (fun vec => decide (3 ≤ vec.length) && decide (1 / 10 ^ 10 < |vec.getD 2 0|))

/-- The kind of figure `PlotManager.plot_vectors` creates. -/
inductive PlotKind where
  | twoD
  | threeD
deriving DecidableEq

/-- `PlotManager.plot_vectors` adds a subplot with `projection='3d'` when
`needs_3d` holds and a plain 2D subplot otherwise (lines 273-278). -/
def plotKind {α : Type u} [LinearOrderedField α]
    [DecidableRel ((· < ·) : α → α → Prop)] (vectors : List (List α)) : PlotKind :=
  if needs_3d vectors then PlotKind.threeD else PlotKind.twoD

/-- `np.linalg.norm` of a 1-D array: the square root of the sum of the
squared components. -/
noncomputable def npNorm (v : List ℝ) : ℝ :=
  Real.sqrt ((v.map (fun x => x ^ 2)).sum)

/-- `VectorMagnitudeLesson.compute` (lines 724-733): the magnitude
`np.linalg.norm(vec)` and the direction, which is `vec / mag` when
`mag > 1e-10` and `np.zeros_like(vec)` otherwise. -/
noncomputable def magDirCompute (v : List ℝ) : ℝ × List ℝ :=
  let mag := npNorm v
  if mag > 1 / 10 ^ 10 then (mag, v.map (fun x => x / mag))
  else (mag, v.map (fun _ => 0))

/-- `VectorBasicsLesson.plot` (lines 441-448): the vectors handed to the
plot renderer and the magnitude `np.linalg.norm(vec)` shown by
`show_info`. -/
noncomputable def basicsPlotInfo (v : List ℝ) : List (List ℝ) × ℝ :=
  ([v], npNorm v)

/-- An arrow drawn by the plot renderer: the tip coordinates (also shown
as the text annotation next to the label) and the label. -/
structure Arrow where
  tip : List ℝ
  textLabel : String

/-- The arrows `PlotManager.setup_3d_plot` draws (lines 322-334): for each
`(vec, label)` pair, a quiver from the origin to `vec` annotated with the
label and the coordinates, but only when `np.linalg.norm(vec) > 1e-10`. -/
noncomputable def arrows3d (vectors : List (List ℝ)) (labels : List String) : List Arrow :=
  (vectors.zip labels).filterMap fun p =>
    if npNorm p.1 > 1 / 10 ^ 10 then some ⟨p.1, p.2⟩ else none

/-- The arrows `PlotManager.setup_2d_plot` draws (lines 355-367): for each
`(vec, label)` pair, a quiver from the origin to `(vec[0], vec[1])`
annotated with the label and these two coordinates, but only when
`np.linalg.norm(vec[:2]) > 1e-10`. -/
noncomputable def arrows2d (vectors : List (List ℝ)) (labels : List String) : List Arrow :=
  (vectors.zip labels).filterMap fun p =>
    if npNorm (p.1.take 2) > 1 / 10 ^ 10 then some ⟨p.1.take 2, p.2⟩ else none

/-- A concrete parser used only to instantiate the theorems below at
concrete inputs: it accepts exactly the text `"5"`, as value `5`. -/
def testParse : String → Option ℚ := fun s => if s = "5" then some 5 else none

/-! ## Theorems -/

/-- C1: For every component entry of a `VectorInput`, `get_vector` maps the
entry's stripped text to a numeric component: empty text, `"-"`, or text
that does not parse yields `0.0`; otherwise the component is the parsed
value.  The first conjunct ties the i-th returned component to the i-th
entry text, so this holds for all three components; every lesson panel
reads vectors through this same `get_vector`. -/
theorem getVector_coercion_spec {α : Type u} [Zero α] (parse : String → Option α)
    (texts : List String) (i : Nat) (hi : i < texts.length) :
    (get_vector parse texts).getD i 0 = getComponent parse (texts.getD i "") ∧
    (∀ t : String, pyStrip t = "" ∨ pyStrip t = "-" ∨ parse (pyStrip t) = none →
      getComponent parse t = 0) ∧
    (∀ (t : String) (x : α), pyStrip t ≠ "" → pyStrip t ≠ "-" →
      parse (pyStrip t) = some x → getComponent parse t = x) := by
  refine ⟨?_, ?_, ?_⟩
  · simp [get_vector, List.getD_eq_getElem?_getD, List.getElem?_map,
      List.getElem?_eq_getElem hi]
  · intro t h
    rcases h with h | h | h <;> simp [getComponent, h]
  · intro t x h1 h2 h3
    simp [getComponent, h1, h2, h3]

/-- Witness for C1 at concrete inputs: the first component of a concrete
entry list, a stripped-but-unparsable text coerced to `0`, and a stripped
parsable text mapped to its parsed value. -/
theorem getVector_coercion_witness :
    (get_vector testParse ["5", "x", ""]).getD 0 0 = getComponent testParse "5" ∧
    getComponent testParse " x " = 0 ∧
    getComponent testParse " 5 " = (5 : ℚ) := by
  have h := getVector_coercion_spec testParse ["5", "x", ""] 0 (by decide)
  exact ⟨h.1, h.2.1 " x " (by decide), h.2.2 " 5 " 5 (by decide) (by decide) (by decide)⟩

/-- C2: In `VectorMagnitudeLesson.compute`, when the norm is at most
`1e-10` the guard of the division branch is false (the branch is
unreachable) and the displayed direction is the zero vector of the same
length; otherwise the direction is the vector divided by its norm. -/
theorem magDir_guard_spec (v : List ℝ) :
    (npNorm v ≤ 1 / 10 ^ 10 →
      ¬ npNorm v > 1 / 10 ^ 10 ∧
      magDirCompute v = (npNorm v, List.replicate v.length 0)) ∧
    (npNorm v > 1 / 10 ^ 10 →
      magDirCompute v = (npNorm v, v.map (fun x => x / npNorm v))) := by
  constructor
  · intro h
    have hng : ¬ npNorm v > 1 / 10 ^ 10 := not_lt.mpr h
    refine ⟨hng, ?_⟩
    show (if npNorm v > 1 / 10 ^ 10 then (npNorm v, v.map (fun x => x / npNorm v))
      else (npNorm v, v.map (fun _ => 0))) = (npNorm v, List.replicate v.length 0)
    rw [if_neg hng, List.map_const']
  · intro h
    show (if npNorm v > 1 / 10 ^ 10 then (npNorm v, v.map (fun x => x / npNorm v))
      else (npNorm v, v.map (fun _ => 0))) = (npNorm v, v.map (fun x => x / npNorm v))
    rw [if_pos h]

/-- Witness for C2: the zero vector takes the zero-direction branch, a
norm-3 vector takes the division branch. -/
theorem magDir_guard_witness :
    magDirCompute [0, 0, 0] = (npNorm [0, 0, 0], List.replicate 3 0) ∧
    magDirCompute [3, 0, 0] =
      (npNorm [3, 0, 0], [(3 : ℝ), 0, 0].map (fun x => x / npNorm [3, 0, 0])) := by
  have h0 : npNorm [0, 0, 0] ≤ 1 / 10 ^ 10 := by simp [npNorm]
  have h3 : npNorm [3, 0, 0] > 1 / 10 ^ 10 := by
    have h : npNorm [3, 0, 0] = 3 := by
      simp only [npNorm, List.map_cons, List.map_nil, List.sum_cons, List.sum_nil]
      norm_num
      rw [show ((9 : ℝ) = 3 ^ 2) by norm_num, Real.sqrt_sq (by norm_num)]
    rw [h]; norm_num
  exact ⟨((magDir_guard_spec [0, 0, 0]).1 h0).2, (magDir_guard_spec [3, 0, 0]).2 h3⟩

/-- C3: `VectorAddSubLesson.compute` produces the componentwise sum for
operation `"Add"` and the componentwise difference for `"Subtract"`, for
every pair of triples read from the two `VectorInput` widgets. -/
theorem addSub_formula_spec {α : Type u} [Add α] [Sub α] (a₁ a₂ a₃ b₁ b₂ b₃ : α) :
    addSubResult "Add" [a₁, a₂, a₃] [b₁, b₂, b₃] = [a₁ + b₁, a₂ + b₂, a₃ + b₃] ∧
    addSubResult "Subtract" [a₁, a₂, a₃] [b₁, b₂, b₃] = [a₁ - b₁, a₂ - b₂, a₃ - b₃] := by
  constructor <;> rfl

/-- C4: For every vector triple read from the vector input and every
scalar text that parses to `k`, `VectorScalingLesson.compute` replaces the
plot and the info panel with the scaled vector whose components are `k`
times the corresponding components. -/
theorem scaling_formula_spec {α : Type u} [Zero α] [Mul α]
    (parse : String → Option α) (vecTexts : List String) (scalarText : String)
    (s : LessonState α) (k v₁ v₂ v₃ : α)
    (hk : parse scalarText = some k)
    (hv : get_vector parse vecTexts = [v₁, v₂, v₃]) :
    scalingCompute parse vecTexts scalarText s =
      ⟨⟨some [[v₁, v₂, v₃], [k * v₁, k * v₂, k * v₃]],
        some ([v₁, v₂, v₃], k, [k * v₁, k * v₂, k * v₃])⟩, false⟩ := by
  unfold scalingCompute
  rw [hk, hv]
  rfl

/-- Witness for C4 at a concrete parser, entry texts, scalar text and
panel state. -/
theorem scaling_formula_witness :
    scalingCompute testParse ["5", "", "5"] "5" ⟨none, none⟩ =
      ⟨⟨some [[5, 0, 5], [5 * 5, 5 * 0, 5 * 5]],
        some ([5, 0, 5], (5 : ℚ), [5 * 5, 5 * 0, 5 * 5])⟩, false⟩ :=
  scaling_formula_spec testParse ["5", "", "5"] "5" ⟨none, none⟩ 5 5 0 5
    (by decide) (by decide)

/-- C5: The magnitude displayed by `VectorBasicsLesson.plot` and by
`VectorMagnitudeLesson.compute` for the triple `(x, y, z)` is the
Euclidean norm `sqrt (x^2 + y^2 + z^2)`. -/
theorem magnitude_formula_spec (x y z : ℝ) :
    (basicsPlotInfo [x, y, z]).2 = Real.sqrt (x ^ 2 + y ^ 2 + z ^ 2) ∧
    (magDirCompute [x, y, z]).1 = Real.sqrt (x ^ 2 + y ^ 2 + z ^ 2) := by
  have h : npNorm [x, y, z] = Real.sqrt (x ^ 2 + y ^ 2 + z ^ 2) := by
    simp only [npNorm, List.map_cons, List.map_nil, List.sum_cons, List.sum_nil]
    rw [add_zero, add_assoc]
  have h1 : (magDirCompute [x, y, z]).1 = npNorm [x, y, z] := by
    unfold magDirCompute
    dsimp only
    split <;> rfl
  exact ⟨h, by rw [h1, h]⟩

/-- C6: `PlotManager.plot_vectors` creates a 3D figure exactly when some
vector of length at least 3 has a z-component of absolute value above
`1e-10`, and a 2D figure otherwise. -/
theorem plotKind_spec {α : Type u} [LinearOrderedField α]
    [DecidableRel ((· < ·) : α → α → Prop)] (vectors : List (List α)) :
    (plotKind vectors = PlotKind.threeD ↔
      ∃ vec ∈ vectors, 3 ≤ vec.length ∧ 1 / 10 ^ 10 < |vec.getD 2 0|) ∧
    (plotKind vectors = PlotKind.twoD ↔
      ¬ ∃ vec ∈ vectors, 3 ≤ vec.length ∧ 1 / 10 ^ 10 < |vec.getD 2 0|) := by
  have key : needs_3d vectors = true ↔
      ∃ vec ∈ vectors, 3 ≤ vec.length ∧ 1 / 10 ^ 10 < |vec.getD 2 0| := by
    unfold needs_3d
    rw [List.any_eq_true]
    constructor
    · rintro ⟨vec, hm, hb⟩
      rw [Bool.and_eq_true, decide_eq_true_eq, decide_eq_true_eq] at hb
      exact ⟨vec, hm, hb.1, hb.2⟩
    · rintro ⟨vec, hm, h1, h2⟩
      refine ⟨vec, hm, ?_⟩
      rw [Bool.and_eq_true, decide_eq_true_eq, decide_eq_true_eq]
      exact ⟨h1, h2⟩
  by_cases hn : needs_3d vectors = true
  · constructor
    · unfold plotKind
      rw [if_pos hn]
      exact ⟨fun _ => key.mp hn, fun _ => rfl⟩
    · unfold plotKind
      rw [if_pos hn]
      exact ⟨fun h => absurd h (by decide), fun h => absurd (key.mp hn) h⟩
  · constructor
    · unfold plotKind
      rw [if_neg hn]
      exact ⟨fun h => absurd h (by decide), fun h => absurd (key.mpr h) hn⟩
    · unfold plotKind
      rw [if_neg hn]
      exact ⟨fun _ h => hn (key.mpr h), fun _ => rfl⟩

/-- C7 counterexample: the claim says one arrow is drawn per vector in the
list, but for the single zero vector the renderer draws no arrow at all,
in the 3D setup and in the 2D setup alike: the source only draws a vector
whose norm exceeds `1e-10`. -/
theorem arrows_per_vector_counterexample :
    (arrows3d [[0, 0, 0]] ["V"]).length ≠ [[(0 : ℝ), 0, 0]].length ∧
    (arrows2d [[0, 0, 0]] ["V"]).length ≠ [[(0 : ℝ), 0, 0]].length := by
  have h3 : ¬ npNorm [(0 : ℝ), 0, 0] > 1 / 10 ^ 10 := by simp [npNorm]
  have h2 : ¬ npNorm ([(0 : ℝ), 0, 0].take 2) > 1 / 10 ^ 10 := by simp [npNorm]
  constructor
  · unfold arrows3d
    simp only [List.zip_cons_cons, List.zip_nil_right, List.filterMap_cons,
      List.filterMap_nil]
    rw [if_neg h3]
    decide
  · unfold arrows2d
    simp only [List.zip_cons_cons, List.zip_nil_right, List.filterMap_cons,
      List.filterMap_nil]
    rw [if_neg h2]
    decide

/-- C7 amended: an arrow from the origin, carrying the vector's label and
its coordinates, is drawn exactly for those vectors whose norm — in the 2D
setup, the norm of the first two components — exceeds `1e-10`; vectors at
or below the threshold are skipped. -/
theorem arrows_drawn_spec (vectors : List (List ℝ)) (labels : List String)
    (t : List ℝ) (l : String) :
    (Arrow.mk t l ∈ arrows3d vectors labels ↔
      (t, l) ∈ vectors.zip labels ∧ 1 / 10 ^ 10 < npNorm t) ∧
    (Arrow.mk t l ∈ arrows2d vectors labels ↔
      ∃ v, (v, l) ∈ vectors.zip labels ∧ t = v.take 2 ∧
        1 / 10 ^ 10 < npNorm (v.take 2)) := by
  constructor
  · unfold arrows3d
    rw [List.mem_filterMap]
    constructor
    · rintro ⟨⟨v0, l0⟩, hm, hf⟩
      dsimp only at hf
      split at hf
      · cases hf; exact ⟨hm, by assumption⟩
      · cases hf
    · rintro ⟨hm, hlt⟩
      exact ⟨(t, l), hm, by rw [if_pos hlt]⟩
  · unfold arrows2d
    rw [List.mem_filterMap]
    constructor
    · rintro ⟨⟨v0, l0⟩, hm, hf⟩
      dsimp only at hf
      split at hf
      · cases hf; exact ⟨v0, hm, rfl, by assumption⟩
      · cases hf
    · rintro ⟨v0, hm, ht, hlt⟩
      subst ht
      exact ⟨(v0, l), hm, by rw [if_pos hlt]⟩

/-- C8: In `VectorScalingLesson.compute` the blocking error dialog is
shown exactly when the scalar text does not parse; when it parses to `k`
no dialog is shown and the computation proceeds, filling the info panel
with the scaling result. -/
theorem scaling_dialog_spec {α : Type u} [Zero α] [Mul α]
    (parse : String → Option α) (vecTexts : List String) (scalarText : String)
    (s : LessonState α) :
    ((scalingCompute parse vecTexts scalarText s).dialogShown = true ↔
      parse scalarText = none) ∧
    (∀ k, parse scalarText = some k →
      (scalingCompute parse vecTexts scalarText s).dialogShown = false ∧
      (scalingCompute parse vecTexts scalarText s).state.info =
        some (get_vector parse vecTexts, k,
          (get_vector parse vecTexts).map (fun x => k * x))) := by
  refine ⟨?_, ?_⟩
  · cases h : parse scalarText with
    | none => simp [scalingCompute, h]
    | some k0 => simp [scalingCompute, h]
  · intro k hk
    refine ⟨?_, ?_⟩ <;> simp [scalingCompute, hk]

/-- Witness for C8: with a parsable scalar text no dialog is shown and the
info panel is filled. -/
theorem scaling_dialog_witness :
    (scalingCompute testParse ["5"] "5" ⟨none, none⟩).dialogShown = false ∧
    (scalingCompute testParse ["5"] "5" ⟨none, none⟩).state.info =
      some (get_vector testParse ["5"], (5 : ℚ),
        (get_vector testParse ["5"]).map (fun x => 5 * x)) :=
  (scaling_dialog_spec testParse ["5"] "5" ⟨none, none⟩).2 5 (by decide)

/-- C9: `VectorInput.create_widgets` creates one entry per element of
`zip(["X","Y","Z"], defaults)` — three entries for the three default
values — and `get_vector` returns exactly one component per entry, in
X, Y, Z order. -/
theorem getVector_three_components {α : Type u} [Zero α]
    (parse : String → Option α) (defaults : List α) (texts : List String)
    (hd : defaults.length = 3) (ht : texts.length = 3) :
    createdEntryCount defaults = 3 ∧
    (get_vector parse texts).length = 3 ∧
    get_vector parse texts =
      [getComponent parse (texts.getD 0 ""), getComponent parse (texts.getD 1 ""),
        getComponent parse (texts.getD 2 "")] := by
  refine ⟨?_, ?_, ?_⟩
  · simp [createdEntryCount, componentLabels, List.length_zip, hd]
  · simp [get_vector, ht]
  · rcases texts with _ | ⟨t0, rest⟩
    · simp at ht
    rcases rest with _ | ⟨t1, rest⟩
    · simp at ht
    rcases rest with _ | ⟨t2, rest⟩
    · simp at ht
    rcases rest with _ | ⟨t3, rest⟩
    · rfl
    · simp at ht

/-- Witness for C9 at a concrete default triple and concrete entry
texts. -/
theorem getVector_three_components_witness :
    createdEntryCount ([0, 0, 0] : List ℚ) = 3 ∧
    (get_vector testParse ["5", "", "-"]).length = 3 ∧
    get_vector testParse ["5", "", "-"] =
      [getComponent testParse "5", getComponent testParse "",
        getComponent testParse "-"] :=
  getVector_three_components testParse [0, 0, 0] ["5", "", "-"] (by decide) (by decide)

/-- C10: When the scalar text fails to parse, `VectorScalingLesson.compute`
shows the dialog and returns with the panel state exactly as it was: no
scaled vector is recorded, the plot and the info panel are unchanged. -/
theorem scaling_error_unchanged {α : Type u} [Zero α] [Mul α]
    (parse : String → Option α) (vecTexts : List String) (scalarText : String)
    (s : LessonState α) (h : parse scalarText = none) :
    scalingCompute parse vecTexts scalarText s = ⟨s, true⟩ := by
  unfold scalingCompute
  rw [h]

/-- Witness for C10: an unparsable scalar text leaves a concrete nonempty
panel state untouched and shows the dialog. -/
theorem scaling_error_unchanged_witness :
    scalingCompute testParse ["5"] "x" ⟨some [[(1 : ℚ)]], none⟩ =
      ⟨⟨some [[(1 : ℚ)]], none⟩, true⟩ :=
  scaling_error_unchanged testParse ["5"] "x" ⟨some [[(1 : ℚ)]], none⟩ (by decide)
